import Mathlib

/-!
Shallow embedding of the crash-log analysis engine of `src/web/script.js`
(functions `parseLogContent`, `extractMCVersion`, `extractLoader`).

Text is modelled as `List Char` (a JavaScript string of the log content).
The two regular expressions of the source are compiled by hand into
deterministic maximal-munch matchers, which is faithful here because in
both patterns every greedy piece (`\S+`, `\d+`, `\s+`) is followed either
by nothing or by a literal character that the piece itself can never
match, so the JavaScript backtracking engine always keeps the maximal
match of each piece.
-/

namespace Mod2Fix

/-- ASCII range of the JavaScript `\s` character class. -/
def isJsSpace (c : Char) : Bool :=
  c = ' ' || c = '\t' || c = '\n' || c = '\r' || c = '\x0b' || c = '\x0c'

/-- Case-insensitive prefix stripping: `stripCI needle hay` returns the rest
of `hay` after a case-insensitive match of `needle`, mirroring how the `i`
flag makes the literal parts of the source regexes case-insensitive. -/
def stripCI : List Char → List Char → Option (List Char)
  | [], cs => some cs
  | _ :: _, [] => none
  | n :: ns, c :: cs => if c.toLower = n.toLower then stripCI ns cs else none

/-- JavaScript `String.prototype.includes`: case-sensitive substring test. -/
def listContains (hay needle : List Char) : Bool :=
  needle.isPrefixOf hay ||
    match hay with
    | [] => false
    | _ :: t => listContains t needle

/-- `includes` lifted to `String`. -/
def strContains (hay needle : String) : Bool :=
  listContains hay.data needle.data

/-- JavaScript `toLowerCase` on the ASCII letters the detector needs. -/
def toLowerList (cs : List Char) : List Char :=
  cs.map Char.toLower

/-- Attempt the regex `/Minecraft\s+(\d+\.\d+(?:\.\d+)?)/i` at the head of
`cs`; on success return the text of capture group 1. -/
def matchVersionAt (cs : List Char) : Option String :=
  match stripCI "Minecraft".data cs with
  | none => none
  | some r1 =>
    let r2 := r1.dropWhile isJsSpace
    if (r1.takeWhile isJsSpace).isEmpty then none
    else
      let d1 := r2.takeWhile Char.isDigit
      let r3 := r2.dropWhile Char.isDigit
      if d1.isEmpty then none
      else
        match r3 with
        | '.' :: r4 =>
          let d2 := r4.takeWhile Char.isDigit
          let r5 := r4.dropWhile Char.isDigit
          if d2.isEmpty then none
          else
            match r5 with
            | '.' :: r6 =>
              let d3 := r6.takeWhile Char.isDigit
              if d3.isEmpty then some ⟨d1 ++ '.' :: d2⟩
              else some ⟨d1 ++ '.' :: d2 ++ '.' :: d3⟩
            | _ => some ⟨d1 ++ '.' :: d2⟩
        | _ => none

/-- Scan of `String.prototype.match` (no `g` flag): try the version pattern
at every position from the left and keep the first success. -/
def findMCVersion : List Char → Option String
  | [] => none
  | c :: t =>
    match matchVersionAt (c :: t) with
    | some v => some v
    | none => findMCVersion t

/-- `extractMCVersion(content)` of `src/web/script.js`. -/
def extractMCVersion (content : String) : String :=
  (findMCVersion content.data).getD "Unknown"

/-- `extractLoader(content)` of `src/web/script.js`. -/
def extractLoader (content : String) : String :=
  if listContains (toLowerList content.data) "fabric".data then "Fabric"
  else if listContains (toLowerList content.data) "forge".data then "Forge"
  else "Unknown"

/-- The `downloadInfo` object built for each dependency match. -/
structure DownloadInfo where
  name : String
  pageUrl : String
  versionUrl : String
  downloadUrl : String
deriving DecidableEq

/-- One element of `results.missingDeps`. -/
structure MissingDep where
  mod : String
  required : String
  downloadInfo : DownloadInfo
deriving DecidableEq

/-- One element of `results.errors`. -/
structure ErrorFinding where
  type : String
  reason : String
  solution : String
deriving DecidableEq

/-- The template literals of lines 104-106 of the source, applied to the
second capture group `match[2]`. -/
def mkDownloadInfo (required : String) : DownloadInfo :=
  { name := required
    pageUrl := "https://modrinth.com/mod/" ++ required
    versionUrl := "https://modrinth.com/mod/" ++ required ++ "/version/latest"
    downloadUrl := "https://cdn.modrinth.com/data/" ++ required ++ "/versions/latest.jar" }

/-- Attempt the regex `/(?:Mod|mod) (\S+) requires (\S+)/i` at the head of
`cs`; on success return capture group 1, capture group 2 and the rest of
the text after the whole match (where the `g`-flag `exec` loop resumes). -/
def tryDepMatch (cs : List Char) : Option (String × String × List Char) :=
  match stripCI "mod".data cs with
  | none => none
  | some r1 =>
    match r1 with
    | ' ' :: r2 =>
      let t1 := r2.takeWhile (fun c => !isJsSpace c)
      let r3 := r2.dropWhile (fun c => !isJsSpace c)
      if t1.isEmpty then none
      else
        match r3 with
        | ' ' :: r4 =>
          match stripCI "requires".data r4 with
          | none => none
          | some r5 =>
            match r5 with
            | ' ' :: r6 =>
              let t2 := r6.takeWhile (fun c => !isJsSpace c)
              let r7 := r6.dropWhile (fun c => !isJsSpace c)
              if t2.isEmpty then none
              else some (⟨t1⟩, ⟨t2⟩, r7)
            | _ => none
        | _ => none
    | _ => none

/-- The `while ((match = depRegex.exec(content)) !== null)` loop of lines
95-109: scan left to right, emit one `MissingDep` per match and resume
after the matched text; on failure advance one position. The fuel starts
at the text length; every successful match consumes at least one character
(in fact at least sixteen), so the fuel never runs out before the text. -/
def scanDepsFuel : Nat → List Char → List MissingDep
  | 0, _ => []
  | _ + 1, [] => []
  | fuel + 1, c :: t =>
    match tryDepMatch (c :: t) with
    | some (m, r, rest) =>
      { mod := m, required := r, downloadInfo := mkDownloadInfo r } :: scanDepsFuel fuel rest
    | none => scanDepsFuel fuel t

/-- The dependency matches of the whole text, in match order. -/
def scanDeps (cs : List Char) : List MissingDep :=
  scanDepsFuel cs.length cs

/-- True when the dependency pattern matches at some position of `cs`. -/
def hasDepMatch : List Char → Bool
  | [] => false
  | c :: t => (tryDepMatch (c :: t)).isSome || hasDepMatch t

/-- The `results` object of `parseLogContent`. -/
structure LogResults where
  errors : List ErrorFinding
  missingDeps : List MissingDep
  mcVersion : String
  loader : String
deriving DecidableEq

/-- The `ErrorFinding` pushed when the text includes `ClassNotFoundException`. -/
def missingClassFinding : ErrorFinding :=
  { type := "Missing Class"
    reason := "Missing dependency or corrupted mod"
    solution := "Reinstall the mod or check for missing dependencies" }

/-- The `ErrorFinding` pushed when the text includes `Mixin`. -/
def mixinConflictFinding : ErrorFinding :=
  { type := "Mixin Conflict"
    reason := "Incompatible mods modifying the same code"
    solution := "Remove conflicting mods one by one to identify the issue" }

/-- `parseLogContent(content)` of `src/web/script.js`, lines 86-129. -/
def parseLogContent (content : String) : LogResults :=
  { errors :=
      (if strContains content "ClassNotFoundException" then [missingClassFinding] else []) ++
      (if strContains content "Mixin" then [mixinConflictFinding] else [])
    missingDeps := scanDeps content.data
    mcVersion := extractMCVersion content
    loader := extractLoader content }

/-- Every dependency finding carries the `downloadInfo` templated from its
own `required` field. -/
theorem scanDepsFuel_downloadInfo :
    ∀ (fuel : Nat) (cs : List Char), ∀ d ∈ scanDepsFuel fuel cs,
      d.downloadInfo = mkDownloadInfo d.required := by
  intro fuel
  induction fuel with
  | zero =>
    intro cs d hd
    simp [scanDepsFuel] at hd
  | succ n ih =>
    intro cs d hd
    cases cs with
    | nil => simp [scanDepsFuel] at hd
    | cons c t =>
      cases htm : tryDepMatch (c :: t) with
      | none =>
        simp only [scanDepsFuel, htm] at hd
        exact ih t d hd
      | some p =>
        obtain ⟨m, r, rest⟩ := p
        simp only [scanDepsFuel, htm] at hd
        rcases List.mem_cons.mp hd with h | h
        · subst h; rfl
        · exact ih rest d h

/-- When the dependency pattern matches nowhere in the text, the scan
produces no findings. -/
theorem scanDepsFuel_eq_nil (fuel : Nat) :
    ∀ cs : List Char, hasDepMatch cs = false → scanDepsFuel fuel cs = [] := by
  induction fuel with
  | zero => intro cs h; rfl
  | succ n ih =>
    intro cs h
    cases cs with
    | nil => rfl
    | cons c t =>
      simp only [hasDepMatch, Bool.or_eq_false_iff] at h
      obtain ⟨h1, h2⟩ := h
      cases htm : tryDepMatch (c :: t) with
      | some p =>
        rw [htm] at h1
        simp at h1
      | none =>
        simp only [scanDepsFuel, htm]
        exact ih t h2

/-- C1, original statement refuted: on the text
"Mod Sodium requires Mod FabricAPI" the analysis does NOT produce the
single pair (Sodium, FabricAPI) — the greedy token after "requires"
captures only "Mod", the next whitespace-delimited token. -/
theorem claim1_original_refuted :
    ¬ ((parseLogContent "Mod Sodium requires Mod FabricAPI").missingDeps.map
        (fun d => (d.mod, d.required)) = [("Sodium", "FabricAPI")]) := by
  decide

/-- C1 (amended): parseLogContent on "Mod Sodium requires Mod FabricAPI"
yields exactly one dependency finding, with requiring mod "Sodium" and
required mod "Mod" (the token right after "requires"), and the three URLs
of its download reference each embed "Mod". -/
theorem claim1_amended :
    (parseLogContent "Mod Sodium requires Mod FabricAPI").missingDeps =
      [{ mod := "Sodium", required := "Mod",
         downloadInfo :=
           { name := "Mod"
             pageUrl := "https://modrinth.com/mod/Mod"
             versionUrl := "https://modrinth.com/mod/Mod/version/latest"
             downloadUrl := "https://cdn.modrinth.com/data/Mod/versions/latest.jar" } }] := by
  decide

/-- C2: the full analysis is a total function — for every input string it
terminates with a result value and has no failure path. -/
theorem claim2_total (s : String) : ∃ r : LogResults, parseLogContent s = r :=
  ⟨parseLogContent s, rfl⟩

/-- C3: the analysis is deterministic and stateless — two runs on
identical input text yield structurally identical reports. -/
theorem claim3_deterministic (s t : String) (h : s = t) :
    parseLogContent s = parseLogContent t := by
  rw [h]

theorem claim3_witness :
    parseLogContent "Mixin" = parseLogContent "Mixin" :=
  claim3_deterministic "Mixin" "Mixin" rfl

/-- C4, original statement refuted: on "no version or loader mentioned"
the extractors return "Unknown" (capital U), not the lowercase "unknown"
the claim states. -/
theorem claim4_original_refuted :
    ¬ (extractMCVersion "no version or loader mentioned" = "unknown" ∧
       extractLoader "no version or loader mentioned" = "unknown") := by
  decide

/-- C4 (amended): for every text in which the Minecraft-version pattern
matches nowhere and which contains neither "fabric" nor "forge"
case-insensitively, the extracted game version and loader are both the
sentinel "Unknown". -/
theorem claim4_amended (s : String)
    (hv : findMCVersion s.data = none)
    (hfab : listContains (toLowerList s.data) "fabric".data = false)
    (hforge : listContains (toLowerList s.data) "forge".data = false) :
    extractMCVersion s = "Unknown" ∧ extractLoader s = "Unknown" := by
  constructor
  · simp [extractMCVersion, hv]
  · simp [extractLoader, hfab, hforge]

theorem claim4_witness :
    extractMCVersion "no version or loader mentioned" = "Unknown" ∧
    extractLoader "no version or loader mentioned" = "Unknown" :=
  claim4_amended "no version or loader mentioned" (by decide) (by decide) (by decide)

/-- C5: any text containing both "fabric" and "forge" case-insensitively
resolves to loader "Fabric" — the Fabric-over-Forge tie-break. -/
theorem claim5_fabric_priority (s : String)
    (hfab : listContains (toLowerList s.data) "fabric".data = true)
    (hforge : listContains (toLowerList s.data) "forge".data = true) :
    (parseLogContent s).loader = "Fabric" := by
  simp [parseLogContent, extractLoader, hfab]

theorem claim5_witness :
    (parseLogContent "loaded FORGE then FaBrIc").loader = "Fabric" :=
  claim5_fabric_priority "loaded FORGE then FaBrIc" (by decide) (by decide)

/-- C6: the error list is always a sublist of the two-row table in table
order (so each row contributes at most one finding, Missing Class before
Mixin Conflict), and whenever a signature substring occurs — however many
times — its finding appears exactly once. -/
theorem claim6_error_rows (s : String) :
    (parseLogContent s).errors.Sublist [missingClassFinding, mixinConflictFinding] ∧
    (strContains s "ClassNotFoundException" = true →
      (parseLogContent s).errors.count missingClassFinding = 1) ∧
    (strContains s "Mixin" = true →
      (parseLogContent s).errors.count mixinConflictFinding = 1) := by
  cases hc : strContains s "ClassNotFoundException" <;>
    cases hm : strContains s "Mixin" <;>
      refine ⟨?_, ?_, ?_⟩ <;>
        simp [parseLogContent, hc, hm] <;> decide

theorem claim6_witness :
    (parseLogContent "ClassNotFoundException ClassNotFoundException Mixin Mixin").errors.count
        missingClassFinding = 1 ∧
    (parseLogContent "ClassNotFoundException ClassNotFoundException Mixin Mixin").errors.count
        mixinConflictFinding = 1 :=
  ⟨(claim6_error_rows "ClassNotFoundException ClassNotFoundException Mixin Mixin").2.1 (by decide),
   (claim6_error_rows "ClassNotFoundException ClassNotFoundException Mixin Mixin").2.2 (by decide)⟩

/-- C7: every dependency finding carries exactly the three deterministic
URL templates instantiated with its required-mod identifier. -/
theorem claim7_download_templates (s : String) (d : MissingDep)
    (hd : d ∈ (parseLogContent s).missingDeps) :
    d.downloadInfo.name = d.required ∧
    d.downloadInfo.pageUrl = "https://modrinth.com/mod/" ++ d.required ∧
    d.downloadInfo.versionUrl = "https://modrinth.com/mod/" ++ d.required ++ "/version/latest" ∧
    d.downloadInfo.downloadUrl =
      "https://cdn.modrinth.com/data/" ++ d.required ++ "/versions/latest.jar" := by
  have hinfo : d.downloadInfo = mkDownloadInfo d.required := by
    simp only [parseLogContent, scanDeps] at hd
    exact scanDepsFuel_downloadInfo _ _ d hd
  rw [hinfo]
  exact ⟨rfl, rfl, rfl, rfl⟩

theorem claim7_witness :
    (⟨"A", "B", mkDownloadInfo "B"⟩ : MissingDep) ∈
        (parseLogContent "mod A requires B").missingDeps ∧
    (⟨"A", "B", mkDownloadInfo "B"⟩ : MissingDep).downloadInfo.pageUrl =
        "https://modrinth.com/mod/" ++ (⟨"A", "B", mkDownloadInfo "B"⟩ : MissingDep).required :=
  ⟨by decide,
   (claim7_download_templates "mod A requires B" ⟨"A", "B", mkDownloadInfo "B"⟩ (by decide)).2.1⟩

/-- C8, original statement refuted: in
"Minecraft 1.20.1 mod A requires B" the game version "1.20.1" is detected
and a dependency finding is produced, yet its versionUrl does not embed
that game version. -/
theorem claim8_original_refuted :
    ¬ (∀ d ∈ (parseLogContent "Minecraft 1.20.1 mod A requires B").missingDeps,
        strContains d.downloadInfo.versionUrl
          (extractMCVersion "Minecraft 1.20.1 mod A requires B") = true) := by
  decide

/-- C8 (amended): the versionUrl of a dependency finding is a function of
the required-mod identifier alone — findings with the same required mod,
even from texts with different detected game versions, get the same
versionUrl. -/
theorem claim8_amended (s₁ s₂ : String) (d₁ d₂ : MissingDep)
    (h₁ : d₁ ∈ (parseLogContent s₁).missingDeps)
    (h₂ : d₂ ∈ (parseLogContent s₂).missingDeps)
    (hr : d₁.required = d₂.required) :
    d₁.downloadInfo.versionUrl = d₂.downloadInfo.versionUrl := by
  simp only [parseLogContent, scanDeps] at h₁ h₂
  have e₁ := scanDepsFuel_downloadInfo _ _ d₁ h₁
  have e₂ := scanDepsFuel_downloadInfo _ _ d₂ h₂
  rw [e₁, e₂, hr]

theorem claim8_witness :
    (⟨"A", "B", mkDownloadInfo "B"⟩ : MissingDep) ∈
        (parseLogContent "Minecraft 1.20.1 mod A requires B").missingDeps ∧
    (⟨"C", "B", mkDownloadInfo "B"⟩ : MissingDep) ∈
        (parseLogContent "Minecraft 1.19.2 mod C requires B").missingDeps ∧
    (⟨"A", "B", mkDownloadInfo "B"⟩ : MissingDep).downloadInfo.versionUrl =
        (⟨"C", "B", mkDownloadInfo "B"⟩ : MissingDep).downloadInfo.versionUrl :=
  ⟨by decide, by decide,
   claim8_amended "Minecraft 1.20.1 mod A requires B" "Minecraft 1.19.2 mod C requires B"
     ⟨"A", "B", mkDownloadInfo "B"⟩ ⟨"C", "B", mkDownloadInfo "B"⟩
     (by decide) (by decide) rfl⟩

/-- C9: a text in which the dependency pattern matches nowhere and that
contains neither error signature yields the empty dependency list and the
empty error list — absence of matches is not a failure. -/
theorem claim9_no_signal (s : String)
    (hdep : hasDepMatch s.data = false)
    (hc : strContains s "ClassNotFoundException" = false)
    (hm : strContains s "Mixin" = false) :
    (parseLogContent s).missingDeps = [] ∧ (parseLogContent s).errors = [] := by
  constructor
  · simp only [parseLogContent, scanDeps]
    exact scanDepsFuel_eq_nil _ _ hdep
  · simp [parseLogContent, hc, hm]

theorem claim9_witness :
    (parseLogContent "hello world").missingDeps = [] ∧
    (parseLogContent "hello world").errors = [] :=
  claim9_no_signal "hello world" (by decide) (by decide) (by decide)

/-- C10: the version pattern matches the word "Minecraft"
case-insensitively, so an all-lowercase "minecraft 1.20.1" mention still
yields game version "1.20.1". -/
theorem claim10_ci_minecraft :
    extractMCVersion "minecraft 1.20.1" = "1.20.1" := by
  decide

end Mod2Fix
